import Mathlib

/-!
A shallow embedding of the Dataset Cache & Query Engine of a banking
transactions API (Python/pandas source) and proofs of its specified
properties.

Conventions of the embedding:
* pandas `DataFrame`s become `List Row`; machine floats become `ℚ`;
  `None`/`NaN` in optional text columns becomes `Option String`.
* a transaction's `amount` may arrive currency-formatted as a string
  (dtype `object`); the model stores the denoted rational in `Row.amount`
  and records the representation in the snapshot-level flag
  `Snapshot.rawAmount`; the services' defensive
  `str.replace($).replace(,).astype(float)` normalization is
  `normalizeAmounts`, which clears the flag on a working copy.
* Python exceptions become `Except String` results; the loader's singleton
  cache becomes an explicit `LoaderState` threaded through the operations,
  and `load_data` additionally reports which storage paths it read.
-/

namespace BankingApi

/-! ## String helpers (Python `in` / pandas `str.contains`) -/

/-- Boolean list-of-characters match at the front. -/
def charsStartWith : List Char → List Char → Bool
  | [], _ => true
  | _ :: _, [] => false
  | a :: as, b :: bs => a == b && charsStartWith as bs

/-- Boolean substring test on character lists: does `hay` contain `pat`?
Mirrors Python `pat in hay` (empty `pat` always matches). -/
def charsContain (pat : List Char) : List Char → Bool
  | [] => charsStartWith pat []
  | c :: rest => charsStartWith pat (c :: rest) || charsContain pat rest

/-- Python `pat in hay` on strings. -/
def strContains (hay pat : String) : Bool :=
  charsContain pat.data hay.data

/-- Case-insensitive variant used by pandas `str.contains(pat, case=False)`. -/
def strContainsCI (hay pat : String) : Bool :=
  charsContain (pat.data.map Char.toLower) (hay.data.map Char.toLower)

/-! ## Data model -/

/-- One row of the raw transactions CSV, before the loader's
`astype(str)` coercion of `id` and before fraud labels are merged.
`amount` holds the rational denoted by the on-disk value, whether that
value is a plain float or a currency-formatted string (the file-level
`CsvFile.rawAmount` flag records which). -/
structure RawRow where
  id : Int
  date : String
  client_id : Int
  card_id : Int
  amount : ℚ
  use_chip : Option String
  merchant_id : Int
  merchant_city : Option String
  merchant_state : Option String
  zip : Option ℚ
  mcc : Int
  errors : Option String
deriving DecidableEq

/-- One row of the loaded, label-merged table: `id` coerced to string and
`isFraud` filled from the label set (or 0). -/
structure Row where
  id : String
  date : String
  client_id : Int
  card_id : Int
  amount : ℚ
  use_chip : Option String
  merchant_id : Int
  merchant_city : Option String
  merchant_state : Option String
  zip : Option ℚ
  mcc : Int
  errors : Option String
  isFraud : Int
deriving DecidableEq

/-- The cached, label-merged table. `rawAmount` is true when the `amount`
column still has dtype `object` (currency-formatted strings). -/
structure Snapshot where
  rows : List Row
  rawAmount : Bool
deriving DecidableEq

/-- A CSV file as stored on disk. -/
structure CsvFile where
  rows : List RawRow
  rawAmount : Bool
deriving DecidableEq

/-- The file system visible to the loader: CSV sources by path, and fraud
label JSON files by path (a label file is modelled by its `target`
mapping, transaction id to label, as an association list). A path exists
exactly when the corresponding lookup is `some`. -/
structure Storage where
  csv : String → Option CsvFile
  labelFiles : String → Option (List (String × String))

/-- The `DataLoader` singleton's mutable class state: the cached DataFrame
(`_data`), or `none` before any successful load. -/
abbrev LoaderState := Option Snapshot

/-! ## DataLoader (`utils/data_loader.py`) -/

/-- Default primary source location (`base_dir / data / transactions_data.csv`). -/
def defaultSourcePath : String := "data/transactions_data.csv"

/-- Default fraud-label location (`base_dir / data / train_fraud_labels.json`). -/
def defaultLabelsPath : String := "data/train_fraud_labels.json"

/-- The `FileNotFoundError` message raised when the CSV source is missing. -/
def datasetNotFoundMsg (p : String) : String :=
  "Dataset not found at " ++ p ++ ". Please download from Kaggle and place in data/ directory."

/-- The `RuntimeError` message raised by `get_data` before any load. -/
def notLoadedMsg : String := "Data not loaded. Call load_data() first."

/-- Build one loaded row: `id` via `astype(str)`, `isFraud` from the fraud
dictionary (`map(fraud_dict).fillna(0)`). -/
def toLoadedRow (fraudOf : String → Int) (r : RawRow) : Row :=
  { id := toString r.id, date := r.date, client_id := r.client_id,
    card_id := r.card_id, amount := r.amount, use_chip := r.use_chip,
    merchant_id := r.merchant_id, merchant_city := r.merchant_city,
    merchant_state := r.merchant_state, zip := r.zip, mcc := r.mcc,
    errors := r.errors, isFraud := fraudOf (toString r.id) }

/-- The fraud dictionary built from a label file's `target` mapping:
`{k: 1 if v == "Yes" else 0}`, with ids absent from the map defaulting
to 0 (`fillna(0)`). -/
def fraudDictOf (target : List (String × String)) (k : String) : Int :=
  match target.lookup k with
  | some v => if v = "Yes" then 1 else 0
  | none => 0

/-- `DataLoader.load_data(file_path)`. Returns the result, the new cache
state, and the list of storage paths actually read (empty when the cache
already held a snapshot). When `file_path` is given explicitly, no fraud
label path is derived (`fraud_labels_path = None`), so labels are never
merged in that case. -/
def load_data (storage : Storage) (file_path : Option String)
    (st : LoaderState) : Except String Snapshot × LoaderState × List String :=
  match st with
  | some d => (Except.ok d, some d, [])
  | none =>
    let path := file_path.getD defaultSourcePath
    let fraud_labels_path : Option String :=
      match file_path with
      | none => some defaultLabelsPath
      | some _ => none
    match storage.csv path with
    | none => (Except.error (datasetNotFoundMsg path), none, [])
    | some file =>
      match fraud_labels_path with
      | some lp =>
        match storage.labelFiles lp with
        | some target =>
          let snap : Snapshot :=
            ⟨file.rows.map (toLoadedRow (fraudDictOf target)), file.rawAmount⟩
          (Except.ok snap, some snap, [path, lp])
        | none =>
          let snap : Snapshot :=
            ⟨file.rows.map (toLoadedRow fun _ => 0), file.rawAmount⟩
          (Except.ok snap, some snap, [path])
      | none =>
        let snap : Snapshot :=
          ⟨file.rows.map (toLoadedRow fun _ => 0), file.rawAmount⟩
        (Except.ok snap, some snap, [path])

/-- `DataLoader.get_data()`: cached snapshot, or `RuntimeError`. -/
def get_data (st : LoaderState) : Except String Snapshot :=
  match st with
  | none => Except.error notLoadedMsg
  | some d => Except.ok d

/-- `DataLoader.is_loaded()`. -/
def is_loaded (st : LoaderState) : Bool := st.isSome

/-- `DataLoader.clear_cache()`. -/
def clear_cache (_ : LoaderState) : LoaderState := none

/-! ## Working-copy amount normalization

Every service does `df = get_data().copy()` (or copies before the first
in-place assignment) and, when the `amount` column still has dtype
`object`, rebinds it to
`df.amount.str.replace($, ).str.replace(,, ).astype(float)`.
The model stores the denoted rational already, so normalization clears the
representation flag on the working copy; the cached snapshot is never the
target of the assignment. -/

/-- Normalize the `amount` column of a working copy. -/
def normalizeAmounts (s : Snapshot) : Snapshot := { s with rawAmount := false }

/-- The working frame a service computes on: a copy of the cached
snapshot, amount-normalized when its dtype is `object`. -/
def workingFrame (s : Snapshot) : Snapshot :=
  if s.rawAmount then normalizeAmounts s else s

/-! ## TransactionsService (`services/transactions_service.py`) -/

/-- Result shape of the paginated list endpoints. -/
structure TransactionList where
  page : Nat
  limit : Nat
  total : Nat
  transactions : List Row
deriving DecidableEq

/-- The successive filters of `TransactionsService.get_transactions`,
applied in source order; `use_chip_filter` and `merchant_state` are
Python-truthy-tested (an empty string disables them), `is_fraud` /
`min_amount` / `max_amount` are `is not None`-tested.
`str.contains(f, case=False, na=False)` drops rows whose `use_chip` is
missing. -/
def applyTxFilters (use_chip_filter : Option String) (is_fraud : Option Int)
    (min_amount max_amount : Option ℚ) (merchant_state : Option String)
    (rows : List Row) : List Row :=
  let df := rows
  let df := match use_chip_filter with
    | some f =>
      if f ≠ "" then
        df.filter fun r =>
          match r.use_chip with
          | some u => strContainsCI u f
          | none => false
      else df
    | none => df
  let df := match is_fraud with
    | some v => df.filter fun r => r.isFraud == v
    | none => df
  let df := match min_amount with
    | some m => df.filter fun r => decide (m ≤ r.amount)
    | none => df
  let df := match max_amount with
    | some m => df.filter fun r => decide (r.amount ≤ m)
    | none => df
  match merchant_state with
  | some s =>
    if s ≠ "" then df.filter (fun r => r.merchant_state == some s) else df
  | none => df

/-- `TransactionsService.get_transactions(page, limit, filters...)`:
filter the working copy, then slice `iloc[(page-1)*limit : (page-1)*limit + limit]`. -/
def get_transactions (st : LoaderState) (page limit : Nat)
    (use_chip_filter : Option String) (is_fraud : Option Int)
    (min_amount max_amount : Option ℚ) (merchant_state : Option String) :
    Except String TransactionList × LoaderState :=
  match get_data st with
  | Except.error e => (Except.error e, st)
  | Except.ok df0 =>
    let df := workingFrame df0
    let filtered :=
      applyTxFilters use_chip_filter is_fraud min_amount max_amount
        merchant_state df.rows
    let start_idx := (page - 1) * limit
    (Except.ok
      { page := page, limit := limit, total := filtered.length,
        transactions := (filtered.drop start_idx).take limit }, st)

/-- `TransactionsService.get_transaction_by_id`: first row with matching
`id`, or `None` (not an error) when the filtered frame is empty. -/
def get_transaction_by_id (st : LoaderState) (transaction_id : String) :
    Except String (Option Row) × LoaderState :=
  match get_data st with
  | Except.error e => (Except.error e, st)
  | Except.ok df =>
    (Except.ok (df.rows.find? fun r => r.id == transaction_id), st)

/-- `TransactionsService.delete_transaction` (simulated): `True` iff
`transaction_id in df.id.values`; the snapshot is not touched. -/
def delete_transaction (st : LoaderState) (transaction_id : String) :
    Except String Bool × LoaderState :=
  match get_data st with
  | Except.error e => (Except.error e, st)
  | Except.ok df =>
    (Except.ok (df.rows.any fun r => r.id == transaction_id), st)

/-! ## CustomerService (`services/customer_service.py`) -/

/-- Result shape of `get_customer_profile`. -/
structure CustomerProfile where
  id : String
  transactions_count : Nat
  avg_amount : ℚ
  total_amount : ℚ
  fraudulent : Bool
  fraud_count : Int
deriving DecidableEq

/-- `CustomerService.get_customer_profile(customer_id)`: raises
`ValueError("Customer ... not found")` when no row matches. -/
def get_customer_profile (st : LoaderState) (customer_id : Int) :
    Except String CustomerProfile × LoaderState :=
  match get_data st with
  | Except.error e => (Except.error e, st)
  | Except.ok df0 =>
    let df := workingFrame df0
    let customer_df := df.rows.filter fun r => r.client_id == customer_id
    if customer_df.isEmpty then
      (Except.error ("Customer " ++ toString customer_id ++ " not found"), st)
    else
      let cnt := customer_df.length
      let tot := (customer_df.map (·.amount)).sum
      let fraud_count := (customer_df.map (·.isFraud)).sum
      (Except.ok
        { id := toString customer_id, transactions_count := cnt,
          avg_amount := tot / cnt, total_amount := tot,
          fraudulent := decide (fraud_count > 0), fraud_count := fraud_count },
        st)

/-! ## StatsService (`services/stats_service.py`) -/

/-- Result shape of `get_stats_by_type`. -/
structure TypeStats where
  type : String
  count : Nat
  avg_amount : ℚ
  total_amount : ℚ
  fraud_rate : ℚ
deriving DecidableEq

/-- Group keys of `df.groupby(use_chip, dropna=True)`: the distinct
non-null `use_chip` values, sorted (pandas groupby sorts keys). -/
def groupKeys (rows : List Row) : List String :=
  ((rows.filterMap (·.use_chip)).dedup).mergeSort fun a b => decide (a ≤ b)

/-- Per-group aggregation of `get_stats_by_type`: count, mean and sum of
`amount`, sum of `isFraud`; a NaN mean (empty group) is coerced to 0.0. -/
def statsOfGroup (rows : List Row) (key : String) : TypeStats :=
  let grp := rows.filter fun r => r.use_chip == some key
  let cnt := grp.length
  let tot := (grp.map (·.amount)).sum
  let fraud_count := (grp.map (·.isFraud)).sum
  { type := key, count := cnt,
    avg_amount := if cnt > 0 then tot / cnt else 0,
    total_amount := tot,
    fraud_rate := if cnt > 0 then (fraud_count : ℚ) / cnt else 0 }

/-- `StatsService.get_stats_by_type()`: vectorized groupby on the working
frame, then `sorted(key=count, reverse=True)` (stable). -/
def get_stats_by_type (st : LoaderState) :
    Except String (List TypeStats) × LoaderState :=
  match get_data st with
  | Except.error e => (Except.error e, st)
  | Except.ok df0 =>
    let df := workingFrame df0
    let stats := (groupKeys df.rows).map (statsOfGroup df.rows)
    (Except.ok (stats.mergeSort fun a b => decide (b.count ≤ a.count)), st)

/-- Result shape of `get_amount_distribution`. -/
structure AmountDistribution where
  bins : List String
  counts : List Nat
deriving DecidableEq

/-- The histogram range used by `np.histogram`: `(min, max)` of the data,
expanded to `(v - 0.5, v + 0.5)` when all values coincide, and `(0, 1)`
for an empty column. -/
def histRange (vals : List ℚ) : ℚ × ℚ :=
  match vals with
  | [] => (0, 1)
  | v :: vs =>
    let lo := vs.foldl min v
    let hi := vs.foldl max v
    if lo = hi then (lo - 1/2, hi + 1/2) else (lo, hi)

/-- Equal-width bin edge `i` of `np.histogram` over `[lo, hi]`. -/
def binEdge (lo hi : ℚ) (n : Nat) (i : Nat) : ℚ :=
  lo + i * ((hi - lo) / n)

/-- Membership of a value in bin `i` of `n`: `[e_i, e_(i+1))` for the
inner bins, `[e_(n-1), e_n]` for the last. -/
def inBin (lo hi : ℚ) (n i : Nat) (x : ℚ) : Bool :=
  decide (binEdge lo hi n i ≤ x) &&
    (if i + 1 < n then decide (x < binEdge lo hi n (i + 1))
     else decide (x ≤ binEdge lo hi n n))

/-- Python `int()` truncation toward zero on a rational. -/
def truncQ (q : ℚ) : Int := if 0 ≤ q then ⌊q⌋ else ⌈q⌉

/-- Bin label `f"{int(bin_edges[i])}-{int(bin_edges[i+1])}"`. -/
def binLabel (lo hi : ℚ) (n i : Nat) : String :=
  toString (truncQ (binEdge lo hi n i)) ++ "-" ++
    toString (truncQ (binEdge lo hi n (i + 1)))

/-- `StatsService.get_amount_distribution(num_bins)`: `np.histogram` of
the normalized `amount` column plus truncated-integer bin labels. -/
def get_amount_distribution (st : LoaderState) (num_bins : Nat) :
    Except String AmountDistribution × LoaderState :=
  match get_data st with
  | Except.error e => (Except.error e, st)
  | Except.ok df0 =>
    let df := workingFrame df0
    let vals := df.rows.map (·.amount)
    let lo := (histRange vals).1
    let hi := (histRange vals).2
    (Except.ok
      { bins := (List.range num_bins).map (binLabel lo hi num_bins),
        counts := (List.range num_bins).map fun i =>
          (vals.filter (inBin lo hi num_bins i)).length }, st)

/-- Lower edge of the histogram range of a snapshot's normalized amount
column. -/
def histLo (s : Snapshot) : ℚ :=
  (histRange ((workingFrame s).rows.map (·.amount))).1

/-- Upper edge of the histogram range of a snapshot's normalized amount
column. -/
def histHi (s : Snapshot) : ℚ :=
  (histRange ((workingFrame s).rows.map (·.amount))).2

/-! ## FraudDetectionService (`services/fraud_detection_service.py`) -/

/-- Result shape of `get_fraud_summary`. -/
structure FraudSummary where
  total_frauds : Int
  flagged : Int
  fraud_rate : ℚ
  total_fraud_amount : ℚ
deriving DecidableEq

/-- `FraudDetectionService.get_fraud_summary()`: totals over the cached
frame; fraud amount is summed over the `isFraud == 1` mask when the mask
is nonempty, else 0.0. -/
def get_fraud_summary (st : LoaderState) :
    Except String FraudSummary × LoaderState :=
  match get_data st with
  | Except.error e => (Except.error e, st)
  | Except.ok df =>
    let total_transactions := df.rows.length
    let total_frauds : Int := (df.rows.map (·.isFraud)).sum
    let fraud_rate : ℚ :=
      if total_transactions > 0 then (total_frauds : ℚ) / total_transactions
      else 0
    let fraud_rows := df.rows.filter fun r => r.isFraud == 1
    let total_fraud_amount : ℚ :=
      if fraud_rows.isEmpty then 0 else (fraud_rows.map (·.amount)).sum
    (Except.ok
      { total_frauds := total_frauds, flagged := total_frauds,
        fraud_rate := fraud_rate, total_fraud_amount := total_fraud_amount },
      st)

/-- Request shape of the rule-based fraud predictor. -/
structure FraudPredictionRequest where
  amount : ℚ
  use_chip : String
  merchant_state : String
  mcc : Int
deriving DecidableEq

/-- Response shape of the rule-based fraud predictor. -/
structure FraudPredictionResponse where
  isFraud : Bool
  probability : ℚ
deriving DecidableEq

/-- The fixed risky merchant-category codes. -/
def risky_mcc : List Int := [5999, 5815, 5962, 5912]

/-- The fixed risky merchant states. -/
def risky_states : List String := ["CA", "FL", "NY", "TX"]

/-- `FraudDetectionService.predict_fraud(request)`: fixed-weight score,
capped at 1.0; fraudulent when strictly above 0.5. -/
def predict_fraud (request : FraudPredictionRequest) : FraudPredictionResponse :=
  let score : ℚ := 0
  let score :=
    if strContains request.use_chip "Online" then score + 3/10
    else if strContains request.use_chip "Chip" then score + 1/10
    else score
  let score := if request.amount > 1000 then score + 3/10 else score
  let score := if request.amount > 5000 then score + 2/10 else score
  let score := if request.mcc ∈ risky_mcc then score + 2/10 else score
  let score := if request.merchant_state ∈ risky_states then score + 1/10 else score
  let probability := min score 1
  { isFraud := decide (probability > 1/2), probability := probability }

/-! ## Specification-side definitions and sample data -/

/-- The fraud score as the specification states it: one flat sum of the
five weight contributions (to be compared with the sequential
accumulation in `predict_fraud`). -/
def specFraudScore (request : FraudPredictionRequest) : ℚ :=
  (if strContains request.use_chip "Online" then 3/10
   else if strContains request.use_chip "Chip" then 1/10 else 0) +
  (if request.amount > 1000 then 3/10 else 0) +
  (if request.amount > 5000 then 2/10 else 0) +
  (if request.mcc ∈ risky_mcc then 2/10 else 0) +
  (if request.merchant_state ∈ risky_states then 1/10 else 0)

/-- The records slice carried by a paginated result (empty on error);
used to state the page-concatenation property. -/
def resultSlice (r : Except String TransactionList) : List Row :=
  match r with
  | Except.ok tl => tl.transactions
  | Except.error _ => []

/-- The filtered working set of `get_transactions` on a cached snapshot:
the rows remaining after amount normalization and the five filters. -/
def filteredWorkingSet (s : Snapshot) (use_chip_filter : Option String)
    (is_fraud : Option Int) (min_amount max_amount : Option ℚ)
    (merchant_state : Option String) : List Row :=
  applyTxFilters use_chip_filter is_fraud min_amount max_amount
    merchant_state (workingFrame s).rows

/-- A sample raw CSV row used to instantiate the loader theorems. -/
def sampleRawRow : RawRow :=
  { id := 1, date := "2019-01-01", client_id := 7, card_id := 2,
    amount := 100, use_chip := some "Swipe Transaction", merchant_id := 11,
    merchant_city := some "Rome", merchant_state := some "NY", zip := none,
    mcc := 5999, errors := none }

/-- A sample one-row CSV file. -/
def sampleCsv : CsvFile := ⟨[sampleRawRow], false⟩

/-- A sample storage holding the CSV at the default location and a fraud
label file marking transaction "1" as fraudulent. -/
def sampleStorage : Storage :=
  { csv := fun p => if p = defaultSourcePath then some sampleCsv else none,
    labelFiles := fun p =>
      if p = defaultLabelsPath then some [("1", "Yes")] else none }

/-- The snapshot `load_data` produces from `sampleStorage` with default
paths: id stringified, label merged. -/
def sampleSnap : Snapshot :=
  ⟨[{ id := "1", date := "2019-01-01", client_id := 7, card_id := 2,
      amount := 100, use_chip := some "Swipe Transaction", merchant_id := 11,
      merchant_city := some "Rome", merchant_state := some "NY", zip := none,
      mcc := 5999, errors := none, isFraud := 1 }], false⟩

/-- A storage whose CSV lives at a non-default path while a fraud label
file is present at the default location. -/
def explicitPathStorage : Storage :=
  { csv := fun p => if p = "data/other.csv" then some sampleCsv else none,
    labelFiles := fun p =>
      if p = defaultLabelsPath then some [("1", "Yes")] else none }

/-- A storage holding the CSV at the default location and no fraud label
file anywhere. -/
def noLabelsStorage : Storage :=
  { csv := fun p => if p = defaultSourcePath then some sampleCsv else none,
    labelFiles := fun _ => none }

/-- A compact row constructor for concrete query-engine scenarios. -/
def mkRow (id : String) (cid : Int) (amt : ℚ) (uc : Option String)
    (ms : Option String) (isf : Int) : Row :=
  { id := id, date := "2019-01-01", client_id := cid, card_id := 0,
    amount := amt, use_chip := uc, merchant_id := 0, merchant_city := none,
    merchant_state := ms, zip := none, mcc := 0, errors := none,
    isFraud := isf }

/-- The five-record snapshot of the fraud-summary scenario:
amounts [9839.64, 181.0, 181.0, 1000.0, 5000.0], isFraud [0,1,1,0,0]. -/
def fraudScenarioSnap : Snapshot :=
  ⟨[ mkRow "1" 1 (983964/100) (some "Swipe Transaction") (some "NY") 0,
     mkRow "2" 2 181 (some "Swipe Transaction") (some "CA") 1,
     mkRow "3" 3 181 (some "Chip Transaction") (some "CA") 1,
     mkRow "4" 4 1000 (some "Online Transaction") (some "TX") 0,
     mkRow "5" 5 5000 (some "Swipe Transaction") none 0 ], false⟩

/-! ## Helper lemmas -/

/-- A successful `load_data` always leaves the produced snapshot in the
cache. -/
theorem load_data_ok_caches (storage : Storage) (fp : Option String)
    (st : LoaderState) (snap : Snapshot) (st2 : LoaderState)
    (reads : List String)
    (h : load_data storage fp st = (Except.ok snap, st2, reads)) :
    st2 = some snap := by
  cases st with
  | some d =>
    simp only [load_data, Prod.mk.injEq, Except.ok.injEq] at h
    rw [← h.2.1, h.1]
  | none =>
    cases fp with
    | some p =>
      cases hcsv : storage.csv p with
      | none => simp [load_data, hcsv] at h
      | some file =>
        simp only [load_data, Option.getD_some, hcsv, Prod.mk.injEq,
          Except.ok.injEq] at h
        rw [← h.2.1, h.1]
    | none =>
      cases hcsv : storage.csv defaultSourcePath with
      | none => simp [load_data, hcsv, Option.getD] at h
      | some file =>
        cases hlab : storage.labelFiles defaultLabelsPath with
        | none =>
          simp only [load_data, hcsv, hlab, Option.getD, Prod.mk.injEq,
            Except.ok.injEq] at h
          rw [← h.2.1, h.1]
        | some target =>
          simp only [load_data, hcsv, hlab, Option.getD, Prod.mk.injEq,
            Except.ok.injEq] at h
          rw [← h.2.1, h.1]

/-! ## Claim theorems -/

/-- Claim C2: `load_data` is idempotent with respect to the cache — with
a snapshot already cached, every call (any arguments, any storage)
returns that snapshot unchanged and reads no storage path; the snapshot
produced by a first successful load is cached and returned by all
subsequent calls. -/
theorem load_data_idempotent :
    (∀ (storage : Storage) (fp : Option String) (d : Snapshot),
      load_data storage fp (some d) = (Except.ok d, some d, [])) ∧
    (∀ (storage : Storage) (fp : Option String) (st : LoaderState)
        (snap : Snapshot) (st2 : LoaderState) (reads : List String),
      load_data storage fp st = (Except.ok snap, st2, reads) →
        st2 = some snap ∧
        ∀ (storage2 : Storage) (fp2 : Option String),
          load_data storage2 fp2 st2 = (Except.ok snap, st2, [])) := by
  refine ⟨fun storage fp d => rfl, ?_⟩
  intro storage fp st snap st2 reads h
  have hst2 := load_data_ok_caches storage fp st snap st2 reads h
  exact ⟨hst2, fun storage2 fp2 => by rw [hst2]; rfl⟩

/-- Witness for C2: a concrete first load through `sampleStorage` caches
`sampleSnap`, and a subsequent call returns it unchanged without reading
storage. -/
theorem load_data_idempotent_witness :
    load_data sampleStorage none (some sampleSnap) =
      (Except.ok sampleSnap, some sampleSnap, []) :=
  ((load_data_idempotent.2 sampleStorage none none sampleSnap
    (some sampleSnap) [defaultSourcePath, defaultLabelsPath]
    (by rfl)).2) sampleStorage none

/-- Claim C4: `get_data` fails with the NotReady error on every cache
state in which no load has completed (in particular right after
`clear_cache`), and returns the cached snapshot after any completed
load. -/
theorem get_data_readiness :
    get_data none = Except.error notLoadedMsg ∧
    (∀ st : LoaderState, get_data (clear_cache st) = Except.error notLoadedMsg) ∧
    (∀ (storage : Storage) (fp : Option String) (st : LoaderState)
        (snap : Snapshot) (st2 : LoaderState) (reads : List String),
      load_data storage fp st = (Except.ok snap, st2, reads) →
        get_data st2 = Except.ok snap) := by
  refine ⟨rfl, fun st => rfl, ?_⟩
  intro storage fp st snap st2 reads h
  rw [load_data_ok_caches storage fp st snap st2 reads h]
  rfl

/-- Witness for C4: after the concrete load through `sampleStorage`,
`get_data` returns the cached `sampleSnap`. -/
theorem get_data_readiness_witness :
    get_data (some sampleSnap) = Except.ok sampleSnap :=
  get_data_readiness.2.2 sampleStorage none none sampleSnap
    (some sampleSnap) [defaultSourcePath, defaultLabelsPath] (by rfl)

/-- Claim C8: on the five-record scenario snapshot the fraud summary is
`total_frauds = 2`, `flagged = 2`, `fraud_rate = 0.4`,
`total_fraud_amount = 362`; `flagged` always equals `total_frauds`; and
an empty snapshot yields `fraud_rate = 0` rather than an error. -/
theorem fraud_summary_scenario :
    (get_fraud_summary (some fraudScenarioSnap)).1 =
      Except.ok { total_frauds := 2, flagged := 2, fraud_rate := 0.4,
                  total_fraud_amount := 362 } ∧
    (∀ s : Snapshot, ∃ fs : FraudSummary,
      (get_fraud_summary (some s)).1 = Except.ok fs ∧
        fs.flagged = fs.total_frauds) ∧
    (get_fraud_summary (some ⟨[], false⟩)).1 =
      Except.ok { total_frauds := 0, flagged := 0, fraud_rate := 0,
                  total_fraud_amount := 0 } := by
  refine ⟨?_, fun s => ⟨_, rfl, rfl⟩, by rfl⟩
  simp [get_fraud_summary, get_data, fraudScenarioSnap, mkRow]
  norm_num

/-- Claim C9: the rule-based fraud scorer returns
`probability = min (specFraudScore request) 1` — the capped sum of the
five fixed weight contributions — and flags fraud exactly when that
probability exceeds 0.5. -/
theorem predict_fraud_weights (request : FraudPredictionRequest) :
    predict_fraud request =
      { isFraud := decide (min (specFraudScore request) 1 > 1/2),
        probability := min (specFraudScore request) 1 } := by
  unfold predict_fraud specFraudScore
  split_ifs <;> norm_num

/-- The working frame keeps exactly the cached rows: normalization only
touches the representation flag of the copy. -/
theorem workingFrame_rows (s : Snapshot) : (workingFrame s).rows = s.rows := by
  unfold workingFrame normalizeAmounts
  split <;> rfl

/-- Claim C3: on an un-cached loader, `load_data` fails exactly when the
primary source is missing, with a `FileNotFoundError` message naming the
expected path; when the source exists and the fraud-label file is
absent, it succeeds and every loaded row has `isFraud = 0`. -/
theorem load_data_source_missing (storage : Storage) (file_path : Option String) :
    ((load_data storage file_path none).1 =
        Except.error (datasetNotFoundMsg (file_path.getD defaultSourcePath)) ↔
      storage.csv (file_path.getD defaultSourcePath) = none) ∧
    (∀ e, (load_data storage file_path none).1 = Except.error e →
      e = datasetNotFoundMsg (file_path.getD defaultSourcePath) ∧
      ∃ pre post, e = pre ++ file_path.getD defaultSourcePath ++ post) ∧
    (storage.csv (file_path.getD defaultSourcePath) ≠ none →
      storage.labelFiles defaultLabelsPath = none →
      ∃ snap, (load_data storage file_path none).1 = Except.ok snap ∧
        ∀ r ∈ snap.rows, r.isFraud = 0) := by
  have hmsg : ∀ p : String, ∃ pre post : String,
      datasetNotFoundMsg p = pre ++ p ++ post := fun p =>
    ⟨"Dataset not found at ",
     ". Please download from Kaggle and place in data/ directory.", rfl⟩
  have hzero : ∀ file : CsvFile,
      ∀ r ∈ file.rows.map (toLoadedRow fun _ => 0), r.isFraud = 0 := by
    intro file r hr
    obtain ⟨r2, _, rfl⟩ := List.mem_map.1 hr
    rfl
  cases file_path with
  | some p =>
    cases hcsv : storage.csv p with
    | none =>
      refine ⟨by simp [load_data, hcsv], ?_, by simp [hcsv]⟩
      intro e he
      simp only [load_data, Option.getD_some, hcsv, Except.error.injEq] at he
      exact ⟨by rw [← he]; rfl, by rw [← he]; exact hmsg p⟩
    | some file =>
      refine ⟨by simp [load_data, hcsv], ?_, ?_⟩
      · intro e he
        simp [load_data, hcsv] at he
      · intro _ _
        exact ⟨⟨file.rows.map (toLoadedRow fun _ => 0), file.rawAmount⟩,
          by simp [load_data, hcsv], hzero file⟩
  | none =>
    cases hcsv : storage.csv defaultSourcePath with
    | none =>
      refine ⟨by simp [load_data, hcsv], ?_, by simp [hcsv]⟩
      intro e he
      simp only [load_data, Option.getD_none, hcsv, Except.error.injEq] at he
      exact ⟨by rw [← he]; rfl, by rw [← he]; exact hmsg defaultSourcePath⟩
    | some file =>
      refine ⟨?_, ?_, ?_⟩
      · cases hlab : storage.labelFiles defaultLabelsPath with
        | none => simp [load_data, hcsv, hlab, datasetNotFoundMsg]
        | some target => simp [load_data, hcsv, hlab, datasetNotFoundMsg]
      · intro e he
        cases hlab : storage.labelFiles defaultLabelsPath with
        | none => simp [load_data, hcsv, hlab] at he
        | some target => simp [load_data, hcsv, hlab] at he
      · intro _ hlab
        exact ⟨⟨file.rows.map (toLoadedRow fun _ => 0), file.rawAmount⟩,
          by simp [load_data, hcsv, hlab], hzero file⟩

/-- Witness for C3: with the source absent at an explicit path the load
fails with the path-naming message, and through `noLabelsStorage`
(source present, no label file) it succeeds with all-zero labels. -/
theorem load_data_source_missing_witness :
    (load_data sampleStorage (some "missing.csv") none).1 =
      Except.error (datasetNotFoundMsg "missing.csv") ∧
    ∃ snap, (load_data noLabelsStorage none none).1 = Except.ok snap ∧
      ∀ r ∈ snap.rows, r.isFraud = 0 :=
  ⟨(load_data_source_missing sampleStorage (some "missing.csv")).1.mpr rfl,
   (load_data_source_missing noLabelsStorage none).2.2
     (by simp [noLabelsStorage]) rfl⟩

/-- Claim C10: a fresh load with an explicit source path never merges
fraud labels — `fraud_labels_path` stays `None` — so the produced (and
cached) snapshot has `isFraud = 0` on every row, whatever label files
exist in storage. -/
theorem load_explicit_path_all_zero (storage : Storage) (p : String)
    (file : CsvFile) (h : storage.csv p = some file) :
    ∃ snap, load_data storage (some p) none =
        (Except.ok snap, some snap, [p]) ∧
      ∀ r ∈ snap.rows, r.isFraud = 0 := by
  refine ⟨⟨file.rows.map (toLoadedRow fun _ => 0), file.rawAmount⟩, ?_, ?_⟩
  · simp [load_data, h]
  · intro r hr
    obtain ⟨r2, _, rfl⟩ := List.mem_map.1 hr
    rfl

/-- Witness for C10: loading from an explicit non-default path through
`explicitPathStorage` — which does hold a fraud-label file at the
default location — still yields all-zero fraud labels. -/
theorem load_explicit_path_all_zero_witness :
    explicitPathStorage.labelFiles defaultLabelsPath = some [("1", "Yes")] ∧
    ∃ snap, load_data explicitPathStorage (some "data/other.csv") none =
        (Except.ok snap, some snap, ["data/other.csv"]) ∧
      ∀ r ∈ snap.rows, r.isFraud = 0 :=
  ⟨rfl, load_explicit_path_all_zero explicitPathStorage "data/other.csv"
    sampleCsv rfl⟩

/-- Counterexample to C5 as stated: on a loaded snapshot holding no row
of customer 42, the customer lookup raises `ValueError` instead of
returning a normal absent result. -/
theorem customer_lookup_error_counterexample :
    (get_customer_profile (some fraudScenarioSnap) 42).1 =
      Except.error "Customer 42 not found" := rfl

/-- Claim C5 (amended): on every loaded snapshot, a transaction-id lookup
with no match returns `None` without error; a customer lookup with no
match, however, raises `ValueError("Customer ... not found")` rather
than returning an absent result. -/
theorem lookup_no_match (s : Snapshot) (tid : String) (cid : Int)
    (ht : ∀ r ∈ s.rows, r.id ≠ tid) (hc : ∀ r ∈ s.rows, r.client_id ≠ cid) :
    (get_transaction_by_id (some s) tid).1 = Except.ok none ∧
    (get_customer_profile (some s) cid).1 =
      Except.error ("Customer " ++ toString cid ++ " not found") := by
  constructor
  · have hfind : s.rows.find? (fun r => r.id == tid) = none := by
      apply List.find?_eq_none.2
      intro r hr
      simpa using ht r hr
    simp [get_transaction_by_id, get_data, hfind]
  · have hfil : (workingFrame s).rows.filter (fun r => r.client_id == cid) = [] := by
      apply List.filter_eq_nil_iff.2
      intro r hr
      rw [workingFrame_rows] at hr
      simpa using hc r hr
    simp [get_customer_profile, get_data, hfil]

/-- Witness for C5 (amended): on the scenario snapshot, transaction id
"99" is absent and lookup yields `None`; customer 42 is absent and the
profile lookup raises. -/
theorem lookup_no_match_witness :
    (get_transaction_by_id (some fraudScenarioSnap) "99").1 = Except.ok none ∧
    (get_customer_profile (some fraudScenarioSnap) 42).1 =
      Except.error ("Customer " ++ toString (42 : Int) ++ " not found") :=
  lookup_no_match fraudScenarioSnap "99" 42 (by decide) (by decide)

/-- Claim C6: no query operation changes the loader cache — each returns
the state it was given, the in-place amount normalization landing on the
working copy only — and the simulated delete reports success exactly
when a row with the given id exists. -/
theorem queries_preserve_cache (st : LoaderState) (page limit : Nat)
    (uc : Option String) (isf : Option Int) (mn mx : Option ℚ)
    (ms : Option String) (tid : String) (cid : Int) (num_bins : Nat) :
    (get_transactions st page limit uc isf mn mx ms).2 = st ∧
    (get_transaction_by_id st tid).2 = st ∧
    (delete_transaction st tid).2 = st ∧
    (get_customer_profile st cid).2 = st ∧
    (get_stats_by_type st).2 = st ∧
    (get_amount_distribution st num_bins).2 = st ∧
    (get_fraud_summary st).2 = st ∧
    (∀ s : Snapshot, st = some s →
      (delete_transaction st tid).1 =
        Except.ok (decide (∃ r ∈ s.rows, r.id = tid))) := by
  refine ⟨?_, ?_, ?_, ?_, ?_, ?_, ?_, ?_⟩
  · cases st <;> rfl
  · cases st <;> rfl
  · cases st <;> rfl
  · cases st with
    | none => rfl
    | some s =>
      simp only [get_customer_profile, get_data]
      split <;> rfl
  · cases st <;> rfl
  · cases st <;> rfl
  · cases st <;> rfl
  · intro s hs
    subst hs
    simp only [delete_transaction, get_data, Except.ok.injEq]
    rw [Bool.eq_iff_iff]
    simp [List.any_eq_true]

/-- Ceiling division bounds the page count: `total` records fit in
`⌈total / limit⌉` pages of `limit`. -/
theorem le_ceilPages_mul (total limit : Nat) (hl : 0 < limit) :
    total ≤ ((total + limit - 1) / limit) * limit := by
  rw [Nat.mul_comm]
  have h1 := Nat.div_add_mod (total + limit - 1) limit
  have h2 := Nat.mod_lt (total + limit - 1) hl
  omega

/-- Concatenating the `k` successive `limit`-sized chunks of a list of
length at most `k * limit` rebuilds the list. -/
theorem join_chunks {α : Type _} (limit : Nat) :
    ∀ (k : Nat) (l : List α), l.length ≤ k * limit →
      ((List.range k).map fun i => (l.drop (i * limit)).take limit).flatten = l := by
  intro k
  induction k with
  | zero =>
    intro l hlen
    simp only [Nat.zero_mul, Nat.le_zero, List.length_eq_zero] at hlen
    simp [hlen]
  | succ k ih =>
    intro l hlen
    have hmul : (k + 1) * limit = k * limit + limit := Nat.succ_mul k limit
    have hcongr : ∀ i ∈ List.range k,
        (l.drop ((i + 1) * limit)).take limit =
          ((l.drop limit).drop (i * limit)).take limit := by
      intro i _
      rw [List.drop_drop]
      have : limit + i * limit = (i + 1) * limit := by ring
      rw [this]
    rw [List.range_succ_eq_map, List.map_cons, List.flatten_cons, List.map_map]
    have hstep :
        ((List.range k).map ((fun i => (l.drop (i * limit)).take limit) ∘ Nat.succ)) =
          (List.range k).map fun i => ((l.drop limit).drop (i * limit)).take limit := by
      refine List.map_congr_left ?_
      intro i hi
      simpa using hcongr i hi
    rw [hstep, ih (l.drop limit) (by simp only [List.length_drop]; omega)]
    simpa using List.take_append_drop limit l

/-- Claim C1: on every loaded snapshot, for every filter combination and
every `page ≥ 1`, `limit ≥ 1`, the paginated list returns exactly the
filtered working set clipped to offsets `[(page-1)·limit, (page-1)·limit
+ limit)`; the slice never exceeds `limit` records, an out-of-range page
yields an empty slice (not an error), and concatenating the slices of
pages `1 .. ⌈total/limit⌉` rebuilds the whole filtered set. -/
theorem get_transactions_pagination (s : Snapshot) (page limit : Nat)
    (hp : 1 ≤ page) (hl : 1 ≤ limit) (uc : Option String) (isf : Option Int)
    (mn mx : Option ℚ) (ms : Option String) :
    (get_transactions (some s) page limit uc isf mn mx ms).1 =
      Except.ok
        { page := page, limit := limit,
          total := (filteredWorkingSet s uc isf mn mx ms).length,
          transactions :=
            ((filteredWorkingSet s uc isf mn mx ms).drop
              ((page - 1) * limit)).take limit } ∧
    (resultSlice
        (get_transactions (some s) page limit uc isf mn mx ms).1).length ≤
      limit ∧
    ((filteredWorkingSet s uc isf mn mx ms).length ≤ (page - 1) * limit →
      resultSlice (get_transactions (some s) page limit uc isf mn mx ms).1 = []) ∧
    ((List.range
        (((filteredWorkingSet s uc isf mn mx ms).length + limit - 1) /
          limit)).map
      fun i =>
        resultSlice
          (get_transactions (some s) (i + 1) limit uc isf mn mx ms).1).flatten =
      filteredWorkingSet s uc isf mn mx ms := by
  have hslice : ∀ p : Nat,
      resultSlice (get_transactions (some s) p limit uc isf mn mx ms).1 =
        ((filteredWorkingSet s uc isf mn mx ms).drop ((p - 1) * limit)).take
          limit := fun p => rfl
  refine ⟨rfl, ?_, ?_, ?_⟩
  · rw [hslice]
    exact List.length_take_le _ _
  · intro h
    rw [hslice, List.drop_eq_nil_of_le h, List.take_nil]
  · have hmap : ∀ i ∈ List.range
        (((filteredWorkingSet s uc isf mn mx ms).length + limit - 1) / limit),
        resultSlice (get_transactions (some s) (i + 1) limit uc isf mn mx ms).1 =
          ((filteredWorkingSet s uc isf mn mx ms).drop (i * limit)).take limit := by
      intro i _
      rw [hslice, Nat.add_sub_cancel]
    rw [List.map_congr_left hmap]
    exact join_chunks limit _ _
      (le_ceilPages_mul _ limit (Nat.lt_of_lt_of_le Nat.zero_lt_one hl))

/-- Witness for C1: page 1 with limit 2 of the unfiltered scenario
snapshot is exactly the first two filtered records. -/
theorem get_transactions_pagination_witness :
    (get_transactions (some fraudScenarioSnap) 1 2 none none none none none).1 =
      Except.ok
        { page := 1, limit := 2,
          total := (filteredWorkingSet fraudScenarioSnap none none none none
            none).length,
          transactions :=
            ((filteredWorkingSet fraudScenarioSnap none none none none
              none).drop ((1 - 1) * 2)).take 2 } :=
  (get_transactions_pagination fraudScenarioSnap 1 2 (by decide) (by decide)
    none none none none none).1

/-- A min-fold is a lower bound of its seed and of every element. -/
theorem foldl_min_spec (vs : List ℚ) :
    ∀ v : ℚ, vs.foldl min v ≤ v ∧ ∀ x ∈ vs, vs.foldl min v ≤ x := by
  induction vs with
  | nil => intro v; exact ⟨le_refl v, by simp⟩
  | cons w ws ih =>
    intro v
    simp only [List.foldl_cons]
    refine ⟨le_trans (ih (min v w)).1 (min_le_left v w), ?_⟩
    intro x hx
    rcases List.mem_cons.1 hx with h | h
    · subst h; exact le_trans (ih (min v x)).1 (min_le_right v x)
    · exact (ih (min v w)).2 x h

/-- A max-fold is an upper bound of its seed and of every element. -/
theorem foldl_max_spec (vs : List ℚ) :
    ∀ v : ℚ, v ≤ vs.foldl max v ∧ ∀ x ∈ vs, x ≤ vs.foldl max v := by
  induction vs with
  | nil => intro v; exact ⟨le_refl v, by simp⟩
  | cons w ws ih =>
    intro v
    simp only [List.foldl_cons]
    refine ⟨le_trans (le_max_left v w) (ih (max v w)).1, ?_⟩
    intro x hx
    rcases List.mem_cons.1 hx with h | h
    · subst h; exact le_trans (le_max_right v x) (ih (max v x)).1
    · exact (ih (max v w)).2 x h

/-- The histogram range is always a nonempty interval. -/
theorem histRange_lt (vals : List ℚ) : (histRange vals).1 < (histRange vals).2 := by
  cases vals with
  | nil => norm_num [histRange]
  | cons v vs =>
    simp only [histRange]
    split
    · have h1 := (foldl_min_spec vs v).1
      have h2 := (foldl_max_spec vs v).1
      simp only []
      linarith
    · next hne =>
      have h1 := (foldl_min_spec vs v).1
      have h2 := (foldl_max_spec vs v).1
      exact lt_of_le_of_ne (le_trans h1 h2) hne

/-- Every data value lies inside the histogram range. -/
theorem histRange_bounds (vals : List ℚ) (x : ℚ) (hx : x ∈ vals) :
    (histRange vals).1 ≤ x ∧ x ≤ (histRange vals).2 := by
  cases vals with
  | nil => simp at hx
  | cons v vs =>
    have hmin : vs.foldl min v ≤ x := by
      rcases List.mem_cons.1 hx with h | h
      · subst h; exact (foldl_min_spec vs x).1
      · exact (foldl_min_spec vs v).2 x h
    have hmax : x ≤ vs.foldl max v := by
      rcases List.mem_cons.1 hx with h | h
      · subst h; exact (foldl_max_spec vs x).1
      · exact (foldl_max_spec vs v).2 x h
    simp only [histRange]
    split
    · constructor <;> [linarith; linarith]
    · exact ⟨hmin, hmax⟩

/-- Bin edges are monotone in the bin index. -/
theorem binEdge_mono (lo hi : ℚ) (n : Nat) (hlo : lo ≤ hi) {i j : Nat}
    (hij : i ≤ j) : binEdge lo hi n i ≤ binEdge lo hi n j := by
  unfold binEdge
  have hw : (0:ℚ) ≤ (hi - lo) / n := by
    apply div_nonneg (by linarith)
    exact_mod_cast Nat.zero_le n
  have hij2 : (i : ℚ) ≤ j := by exact_mod_cast hij
  have := mul_le_mul_of_nonneg_right hij2 hw
  linarith

/-- The last bin edge is the upper end of the range. -/
theorem binEdge_last (lo hi : ℚ) (n : Nat) (hn : 0 < n) :
    binEdge lo hi n n = hi := by
  unfold binEdge
  have hnq : (n : ℚ) ≠ 0 := by
    exact_mod_cast Nat.pos_iff_ne_zero.1 hn
  field_simp

/-- A value belongs to at most one bin. -/
theorem inBin_unique (lo hi : ℚ) (n : Nat) (hlo : lo < hi) (x : ℚ)
    {i j : Nat} (hin : i < n) (hjn : j < n)
    (hbi : inBin lo hi n i x = true) (hbj : inBin lo hi n j x = true) :
    i = j := by
  have key : ∀ a b : Nat, a < n → b < n → inBin lo hi n a x = true →
      inBin lo hi n b x = true → a < b → False := by
    intro a b han hbn hba hbb hab
    have ha1 : a + 1 < n := by omega
    simp only [inBin, Bool.and_eq_true, decide_eq_true_eq] at hba hbb
    rw [if_pos ha1] at hba
    have hxlt : x < binEdge lo hi n (a + 1) := by
      simpa using hba.2
    have hble : binEdge lo hi n b ≤ x := hbb.1
    have hmono : binEdge lo hi n (a + 1) ≤ binEdge lo hi n b :=
      binEdge_mono lo hi n hlo.le (by omega)
    linarith
  rcases Nat.lt_trichotomy i j with h | h | h
  · exact absurd (key i j hin hjn hbi hbj h) (not_false)
  · exact h
  · exact absurd (key j i hjn hin hbj hbi h) (not_false)

/-- Every value inside the range belongs to at least one bin. -/
theorem inBin_exists (lo hi : ℚ) (n : Nat) (hn : 0 < n) (hlo : lo < hi)
    (x : ℚ) (hx1 : lo ≤ x) (hx2 : x ≤ hi) :
    ∃ k, k < n ∧ inBin lo hi n k x = true := by
  have hnq : (0:ℚ) < n := by exact_mod_cast hn
  have hw : (0:ℚ) < (hi - lo) / n := div_pos (by linarith) hnq
  by_cases hxh : x < hi
  · have hq0 : 0 ≤ (x - lo) / ((hi - lo) / n) := div_nonneg (by linarith) hw.le
    have hmul : ((x - lo) / ((hi - lo) / n)) * ((hi - lo) / n) = x - lo := by
      have hd : hi - lo ≠ 0 := by linarith
      have hnz : (n : ℚ) ≠ 0 := ne_of_gt hnq
      field_simp
    have hqn : (x - lo) / ((hi - lo) / n) < n := by
      rw [div_lt_iff hw]
      have hrw : (n:ℚ) * ((hi - lo) / n) = hi - lo := by field_simp
      rw [hrw]
      linarith
    set q : ℚ := (x - lo) / ((hi - lo) / n) with hqdef
    have hfl0 : 0 ≤ ⌊q⌋ := Int.floor_nonneg.2 hq0
    have hfln : ⌊q⌋ < (n : ℤ) := Int.floor_lt.2 (by exact_mod_cast hqn)
    refine ⟨(⌊q⌋).toNat, by omega, ?_⟩
    have hk : (((⌊q⌋).toNat : ℕ) : ℚ) = ((⌊q⌋ : ℤ) : ℚ) := by
      exact_mod_cast congrArg (fun z : ℤ => (z : ℚ))
        (Int.toNat_of_nonneg hfl0)
    simp only [inBin, Bool.and_eq_true, decide_eq_true_eq]
    constructor
    · unfold binEdge
      rw [hk]
      have h1 : ((⌊q⌋ : ℤ) : ℚ) ≤ q := Int.floor_le q
      have h2 : ((⌊q⌋ : ℤ) : ℚ) * ((hi - lo) / n) ≤ q * ((hi - lo) / n) :=
        mul_le_mul_of_nonneg_right h1 hw.le
      rw [hmul] at h2
      linarith
    · by_cases hcase : (⌊q⌋).toNat + 1 < n
      · rw [if_pos hcase]
        simp only [decide_eq_true_eq]
        unfold binEdge
        push_cast
        rw [hk]
        have h1 : q < ((⌊q⌋ : ℤ) : ℚ) + 1 := Int.lt_floor_add_one q
        have h2 : q * ((hi - lo) / n) < (((⌊q⌋ : ℤ) : ℚ) + 1) * ((hi - lo) / n) :=
          mul_lt_mul_of_pos_right h1 hw
        rw [hmul] at h2
        linarith
      · rw [if_neg hcase]
        simp only [decide_eq_true_eq]
        rw [binEdge_last lo hi n hn]
        exact hx2
  · have hxeq : x = hi := le_antisymm hx2 (not_lt.1 hxh)
    refine ⟨n - 1, by omega, ?_⟩
    simp only [inBin, Bool.and_eq_true, decide_eq_true_eq]
    have hif : ¬(n - 1 + 1 < n) := by omega
    rw [if_neg hif]
    constructor
    · have hmono := binEdge_mono lo hi n hlo.le (show n - 1 ≤ n by omega)
      rw [binEdge_last lo hi n hn] at hmono
      rw [hxeq]
      exact hmono
    · simp only [decide_eq_true_eq]
      rw [binEdge_last lo hi n hn, hxeq]

/-- Sums of pointwise sums split. -/
theorem sum_map_add_nat {α : Type _} (f g : α → Nat) (l : List α) :
    (l.map fun x => f x + g x).sum = (l.map f).sum + (l.map g).sum := by
  induction l with
  | nil => rfl
  | cons a l ih =>
    simp only [List.map_cons, List.sum_cons, ih]
    omega

/-- A filter's length as a sum of indicators. -/
theorem length_filter_eq_sum_map {α : Type _} (p : α → Bool) (l : List α) :
    (l.filter p).length = (l.map fun x => if p x then 1 else 0).sum := by
  induction l with
  | nil => rfl
  | cons a l ih =>
    by_cases h : p a <;> simp [List.filter_cons, h, ih] <;> omega

/-- Exchanging the order of a double count: summing per-bin filter sizes
equals summing per-element bin multiplicities. -/
theorem sum_filter_lengths {α : Type _} (p : Nat → α → Bool) :
    ∀ (idxs : List Nat) (vals : List α),
      (idxs.map fun i => (vals.filter (p i)).length).sum =
        (vals.map fun x => (idxs.filter fun i => p i x).length).sum := by
  intro idxs
  induction idxs with
  | nil => intro vals; simp
  | cons i idxs ih =>
    intro vals
    simp only [List.map_cons, List.sum_cons, ih vals]
    have h1 : ∀ x : α, ((i :: idxs).filter fun j => p j x).length =
        (if p i x then 1 else 0) + (idxs.filter fun j => p j x).length := by
      intro x
      by_cases h : p i x <;> simp [List.filter_cons, h] <;> omega
    calc (vals.filter (p i)).length +
          (vals.map fun x => (idxs.filter fun j => p j x).length).sum
        = (vals.map fun x => if p i x then 1 else 0).sum +
            (vals.map fun x => (idxs.filter fun j => p j x).length).sum := by
          rw [length_filter_eq_sum_map]
      _ = (vals.map fun x =>
            (if p i x then 1 else 0) +
              (idxs.filter fun j => p j x).length).sum := by
          rw [sum_map_add_nat]
      _ = (vals.map fun x => ((i :: idxs).filter fun j => p j x).length).sum := by
          simp only [h1]

/-- A map that is constantly 1 sums to the length. -/
theorem sum_map_eq_length {α : Type _} (l : List α) (f : α → Nat)
    (h : ∀ x ∈ l, f x = 1) : (l.map f).sum = l.length := by
  induction l with
  | nil => rfl
  | cons a l ih =>
    simp only [List.map_cons, List.sum_cons, List.length_cons,
      h a (List.mem_cons_self a l), ih fun x hx => h x (List.mem_cons_of_mem a hx)]
    omega

/-- Filtering `range n` by a predicate holding at exactly one index has
exactly one survivor. -/
theorem filter_range_unique (p : Nat → Bool) :
    ∀ (n k : Nat), k < n → p k = true → (∀ j, j < n → p j = true → j = k) →
      ((List.range n).filter p).length = 1 := by
  intro n
  induction n with
  | zero => intro k hk _ _; omega
  | succ n ih =>
    intro k hk hpk huniq
    rw [List.range_succ, List.filter_append, List.length_append]
    by_cases hkn : k = n
    · have hz : ((List.range n).filter p).length = 0 := by
        rw [List.length_eq_zero]
        apply List.filter_eq_nil_iff.2
        intro j hj hpj
        have hj2 := List.mem_range.1 hj
        have := huniq j (by omega) hpj
        omega
      have ho : ([n].filter p).length = 1 := by
        subst hkn
        simp [List.filter_cons, hpk]
      omega
    · have h1 : ((List.range n).filter p).length = 1 := by
        refine ih k (by omega) hpk ?_
        intro j hj hpj
        exact huniq j (by omega) hpj
      have hpn : p n = false := by
        cases hpn : p n
        · rfl
        · exact absurd (huniq n (Nat.lt_succ_self n) hpn).symm hkn
      have h0 : ([n].filter p).length = 0 := by
        simp [List.filter_cons, hpn]
      omega

/-- The per-bin counts of an `n`-bin histogram over its own min/max range
sum to the number of data values. -/
theorem histogram_total (vals : List ℚ) (n : Nat) (hn : 0 < n) :
    ((List.range n).map fun i =>
      (vals.filter
        (inBin (histRange vals).1 (histRange vals).2 n i)).length).sum =
      vals.length := by
  rw [sum_filter_lengths (fun i x => inBin (histRange vals).1 (histRange vals).2 n i x)]
  apply sum_map_eq_length
  intro x hx
  obtain ⟨hxlo, hxhi⟩ := histRange_bounds vals x hx
  obtain ⟨k, hk, hbk⟩ :=
    inBin_exists (histRange vals).1 (histRange vals).2 n hn
      (histRange_lt vals) x hxlo hxhi
  refine filter_range_unique _ n k hk hbk ?_
  intro j hj hpj
  exact inBin_unique (histRange vals).1 (histRange vals).2 n
    (histRange_lt vals) x hj hk hpj hbk

/-- Claim C7: for every loaded snapshot (amounts are exact rationals in
the model, so none is NaN) and every `num_bins ≥ 1`, the amount
histogram has exactly `num_bins` bin labels, each of the form
`"<low>-<high>"` with the edge values truncated to integers, and the
per-bin counts sum to the total number of transactions. -/
theorem amount_distribution_spec (s : Snapshot) (num_bins : Nat)
    (hn : 1 ≤ num_bins) :
    ∃ d : AmountDistribution,
      (get_amount_distribution (some s) num_bins).1 = Except.ok d ∧
      d.bins.length = num_bins ∧
      d.bins = (List.range num_bins).map (fun i =>
        toString (truncQ (binEdge (histLo s) (histHi s) num_bins i)) ++ "-" ++
        toString (truncQ (binEdge (histLo s) (histHi s) num_bins (i + 1)))) ∧
      d.counts.sum = s.rows.length := by
  refine ⟨_, rfl, ?_, rfl, ?_⟩
  · simp [List.length_map, List.length_range]
  · have h := histogram_total ((workingFrame s).rows.map (·.amount)) num_bins
      (Nat.lt_of_lt_of_le Nat.zero_lt_one hn)
    calc ((List.range num_bins).map fun i =>
          (((workingFrame s).rows.map (·.amount)).filter
            (inBin (histRange ((workingFrame s).rows.map (·.amount))).1
              (histRange ((workingFrame s).rows.map (·.amount))).2
              num_bins i)).length).sum
        = ((workingFrame s).rows.map (·.amount)).length := h
      _ = s.rows.length := by rw [workingFrame_rows, List.length_map]

/-- Witness for C7: the three-bin histogram of the scenario snapshot. -/
theorem amount_distribution_spec_witness :
    1 ≤ 3 ∧
    ∃ d : AmountDistribution,
      (get_amount_distribution (some fraudScenarioSnap) 3).1 = Except.ok d ∧
      d.bins.length = 3 ∧
      d.bins = (List.range 3).map (fun i =>
        toString (truncQ (binEdge (histLo fraudScenarioSnap)
          (histHi fraudScenarioSnap) 3 i)) ++ "-" ++
        toString (truncQ (binEdge (histLo fraudScenarioSnap)
          (histHi fraudScenarioSnap) 3 (i + 1)))) ∧
      d.counts.sum = fraudScenarioSnap.rows.length :=
  ⟨by decide, amount_distribution_spec fraudScenarioSnap 3 (by decide)⟩

/-- Witness for C6: deleting the present id "2" from the scenario
snapshot reports success while the cache is left untouched. -/
theorem queries_preserve_cache_witness :
    (delete_transaction (some fraudScenarioSnap) "2").1 =
      Except.ok (decide (∃ r ∈ fraudScenarioSnap.rows, r.id = "2")) ∧
    (delete_transaction (some fraudScenarioSnap) "2").2 =
      some fraudScenarioSnap :=
  ⟨(queries_preserve_cache (some fraudScenarioSnap) 1 1 none none none none
      none "2" 0 1).2.2.2.2.2.2.2 fraudScenarioSnap rfl,
   (queries_preserve_cache (some fraudScenarioSnap) 1 1 none none none none
      none "2" 0 1).2.2.1⟩

end BankingApi
